import Mathlib

/-!
Shallow embedding of the authentication / authorization core of the
e-learning backend (src/main.py, src/database.py, src/schemas.py).

Modelling conventions:
* A Mongo document of the `user` collection is a `UserDoc`.  Fields that the
  code reads with `dict.get` (and which a schemaless document may lack) are
  `Option`-valued (`hashed_password`, `role`, `is_active`, timestamps); fields
  the code always accesses directly (`email`, `full_name`) are plain strings.
* The `user` collection is a `Store`: an insertion-ordered association list of
  `(ObjectId, UserDoc)` pairs plus a fresh-id counter.  Mongo ObjectIds are
  modelled as `Nat`; `str(ObjectId)` is decimal `toString` and the fallible
  `ObjectId(s)` constructor (which raises `bson.errors.InvalidId` on an
  ill-formed string) is `parseObjectId = String.toNat?`.
* `find_one(pred)` is `List.find?` over insertion order (Mongo natural order).
* The password hasher (passlib, an external collaborator) appears in two
  forms: `get_password_hash` is a deterministic stand-in for `pwd_context.hash`
  used where the code only stores the result, and theorems about
  `authenticate_user` quantify over an arbitrary `verify : String → String →
  Bool`, constrained only by the hasher interface contract where needed.
* A JWT is a payload plus the key it was signed with; `jwt_decode` checks that
  the presented key matches the signing key and that the token is unexpired
  (python-jose raises on `exp < now`).  Times are `Nat` seconds.
* A handler outcome is a `Resp`: a value, a raised `HTTPException`
  (status / detail / optional WWW-Authenticate header), or an exception that
  escapes the handler uncaught (`Resp.uncaught`, the framework turns it into
  a 500).
-/

/-- A document of the `user` collection (schemas.py `User` plus the timestamp
fields added by `create_document`). -/
structure UserDoc where
  email : String
  full_name : String
  hashed_password : Option String
  role : Option String
  is_active : Option Bool
  created_at : Option String
  updated_at : Option String
deriving DecidableEq, Repr

/-- The `user` collection: insertion-ordered documents keyed by ObjectId
(modelled as Nat), plus the next fresh id. -/
structure Store where
  users : List (Nat × UserDoc)
  nextId : Nat
deriving DecidableEq, Repr

/-- An HTTPException as raised by the handlers: status code, detail message,
and the optional WWW-Authenticate challenge header. -/
structure HTTPError where
  status_code : Nat
  detail : String
  wwwAuthenticate : Option String
deriving DecidableEq, Repr

/-- Outcome of a request handler or dependency: a value, a raised
HTTPException, or an exception escaping the handler uncaught (HTTP 500). -/
inductive Resp (α : Type) where
  | ok : α → Resp α
  | err : HTTPError → Resp α
  | uncaught : String → Resp α
deriving DecidableEq, Repr

/-- main.py line 13. -/
def SECRET_KEY : String := "dev-secret-key-change-in-prod"

/-- main.py line 15: ACCESS_TOKEN_EXPIRE_MINUTES = 60 * 24. -/
def ACCESS_TOKEN_EXPIRE_MINUTES : Nat := 60 * 24

/-- Deterministic stand-in for the external passlib `pwd_context.hash`
(main.py `get_password_hash`): the claims settled here depend only on the hash
being some string stored in the record, never on its value. -/
def get_password_hash (password : String) : String :=
  "$2b$12$" ++ password

/-- Model of `str(ObjectId)`. -/
def objIdStr (oid : Nat) : String := toString oid

/-- Model of the `bson.ObjectId(s)` constructor: `some` on a well-formed id
string (a nonempty string of decimal digits, matching `objIdStr`), `none`
where bson raises `bson.errors.InvalidId`. -/
def parseObjectId (s : String) : Option Nat :=
  if s.data ≠ [] ∧ s.data.all (fun c => c.isDigit) then
    some (s.data.foldl (fun n c => n * 10 + (c.toNat - Char.toNat '0')) 0)
  else none

/-- Python truthiness of `x or default` on an optional string: `None` and the
empty string are falsy (main.py line 137 `user_in.role or "student"`). -/
def pyOrStr (x : Option String) (default : String) : String :=
  match x with
  | none => default
  | some s => if s = "" then default else s

/-- database.py `create_document`: stamps created_at / updated_at, inserts with
a fresh id, and returns the inserted document together with the new store. -/
def create_document (s : Store) (now : String) (data : UserDoc) :
    (Nat × UserDoc) × Store :=
  let data_to_insert := { data with created_at := some now, updated_at := some now }
  ((s.nextId, data_to_insert),
   { users := s.users ++ [(s.nextId, data_to_insert)], nextId := s.nextId + 1 })

/-- database.py `get_documents` specialised to the `user` collection with the
empty filter: all documents in natural order up to `limit`, with `_id`
stringified into the `id` field. -/
def get_documents (s : Store) (limit : Nat) : List (String × UserDoc) :=
  (s.users.take limit).map (fun p => (objIdStr p.1, p.2))

/-- main.py `get_user_by_identifier`: find_one by email, falling back to
find_one by full_name. -/
def get_user_by_identifier (s : Store) (identifier : String) :
    Option (Nat × UserDoc) :=
  match s.users.find? (fun p => p.2.email = identifier) with
  | some user => some user
  | none => s.users.find? (fun p => p.2.full_name = identifier)

/-- main.py `authenticate_user`: resolve the identifier, verify the password
against the stored hash (defaulting a missing hash to the empty string), and
return the record with its id stringified; `none` on any failure.  `verify` is
the external passlib verifier. -/
def authenticate_user (verify : String → String → Bool) (s : Store)
    (identifier password : String) : Option (String × UserDoc) :=
  match get_user_by_identifier s identifier with
  | none => none
  | some user =>
    if verify password (user.2.hashed_password.getD "") then
      some (objIdStr user.1, user.2)
    else
      none

/-- The `sub` / `role` claims passed to `create_access_token` (main.py
line 156 builds this dict at login). -/
structure TokenData where
  sub : Option String
  role : Option String
deriving DecidableEq, Repr

/-- A decoded JWT payload: subject, role, absolute expiry (seconds). -/
structure Payload where
  sub : Option String
  role : Option String
  exp : Nat
deriving DecidableEq, Repr

/-- A signed token: its payload and the key it was signed with. -/
structure Jwt where
  payload : Payload
  key : String
deriving DecidableEq, Repr

/-- main.py `create_access_token`: expiry is now plus the explicit delta or the
default TTL (ACCESS_TOKEN_EXPIRE_MINUTES minutes, in seconds), signed with the
process-wide SECRET_KEY. -/
def create_access_token (data : TokenData) (now : Nat)
    (expires_delta : Option Nat) : Jwt :=
  { payload :=
      { sub := data.sub, role := data.role,
        exp := now + expires_delta.getD (ACCESS_TOKEN_EXPIRE_MINUTES * 60) },
    key := SECRET_KEY }

/-- Result of `jose.jwt.decode`: the payload, or a JWTError (signature
mismatch, malformed token, or expiry). -/
inductive JwtResult where
  | ok : Payload → JwtResult
  | error : JwtResult
deriving DecidableEq, Repr

/-- Model of `jose.jwt.decode(token, key, ...)` at time `now`: rejects a token
signed with a different key, and rejects an expired token (python-jose raises
ExpiredSignatureError when exp < now, zero leeway). -/
def jwt_decode (token : Jwt) (key : String) (now : Nat) : JwtResult :=
  if token.key = key then
    if token.payload.exp < now then JwtResult.error
    else JwtResult.ok token.payload
  else JwtResult.error

/-- main.py lines 66-70: the shared 401 raised by `get_current_user`. -/
def credentialsException : HTTPError :=
  { status_code := 401, detail := "Could not validate credentials",
    wwwAuthenticate := some "Bearer" }

/-- main.py `get_current_user`: decode the token (JWTError → 401), require a
`sub` claim (missing → 401), convert it with `ObjectId(...)` (ill-formed id →
uncaught `bson.errors.InvalidId`, outside the try/except), load the record
(missing → 401), and return it with its id stringified. -/
def get_current_user (token : Jwt) (s : Store) (now : Nat) :
    Resp (String × UserDoc) :=
  match jwt_decode token SECRET_KEY now with
  | JwtResult.error => Resp.err credentialsException
  | JwtResult.ok payload =>
    match payload.sub with
    | none => Resp.err credentialsException
    | some user_id =>
      match parseObjectId user_id with
      | none => Resp.uncaught "bson.errors.InvalidId"
      | some oid =>
        match s.users.find? (fun p => p.1 = oid) with
        | none => Resp.err credentialsException
        | some user => Resp.ok (objIdStr user.1, user.2)

/-- main.py `get_current_admin`: 403 unless the freshly loaded record's role
field equals "admin". -/
def get_current_admin (token : Jwt) (s : Store) (now : Nat) :
    Resp (String × UserDoc) :=
  match get_current_user token s now with
  | Resp.ok user =>
    if user.2.role ≠ some "admin" then
      Resp.err { status_code := 403, detail := "Admin privileges required",
                 wwwAuthenticate := none }
    else
      Resp.ok user
  | Resp.err e => Resp.err e
  | Resp.uncaught m => Resp.uncaught m

/-- The request body of POST /auth/register (schemas.py `UserCreate`); `role`
is the parsed optional field. -/
structure UserCreateIn where
  email : String
  full_name : String
  password : String
  role : Option String
deriving DecidableEq, Repr

/-- The public user view (schemas.py `UserPublic`). -/
structure UserPublicOut where
  id : String
  email : String
  full_name : String
  role : String
  is_active : Bool
deriving DecidableEq, Repr

/-- main.py `register`: 400 if a record with the email exists, otherwise hash
the password, store the document with `user_in.role or "student"`, and return
the public view of the created record (the created document is returned
unchanged by `create_document`, so its fields are read off directly). -/
def register (s : Store) (now : String) (user_in : UserCreateIn) :
    Resp UserPublicOut × Store :=
  match s.users.find? (fun p => p.2.email = user_in.email) with
  | some _ =>
    (Resp.err { status_code := 400, detail := "Email already registered",
                wwwAuthenticate := none }, s)
  | none =>
    let hashed := get_password_hash user_in.password
    let role := pyOrStr user_in.role "student"
    let user_doc : UserDoc :=
      { email := user_in.email, full_name := user_in.full_name,
        hashed_password := some hashed, role := some role,
        is_active := some true, created_at := none, updated_at := none }
    let res := create_document s now user_doc
    (Resp.ok
      { id := objIdStr res.1.1, email := res.1.2.email,
        full_name := res.1.2.full_name, role := role,
        is_active := res.1.2.is_active.getD true }, res.2)

/-- The default admin document built by `ensure_default_admin`
(main.py lines 113-119), before `create_document` stamps timestamps. -/
def defaultAdminDoc : UserDoc :=
  { email := "antonio.admin@demo.local", full_name := "AntonioAdmin",
    hashed_password := some (get_password_hash "Antonio89"),
    role := some "admin", is_active := some true,
    created_at := none, updated_at := none }

/-- main.py `ensure_default_admin`, failure-free store: no-op when a record
with role "admin" exists, otherwise create the default admin. -/
def ensure_default_admin (s : Store) (now : String) : Store :=
  match s.users.find? (fun p => p.2.role = some "admin") with
  | some _ => s
  | none => (create_document s now defaultAdminDoc).2

/-- Errors an individual store operation may raise (database.py / §6 of the
spec: the store unreachable, or a uniqueness-constraint violation). -/
inductive DbErr where
  | unavailable
  | duplicateKey
deriving DecidableEq, Repr

/-- main.py `ensure_default_admin` with fallible store operations: `findRes`
is the outcome of the existence check and `createRes` the outcome of the
creation.  The whole body is wrapped in try/except Exception, so every error
is swallowed and the function returns with the store unchanged. -/
def ensure_default_admin_try (findRes : Except DbErr (Option (Nat × UserDoc)))
    (createRes : Except DbErr Store) (s : Store) : Store :=
  match findRes with
  | Except.error _ => s
  | Except.ok (some _) => s
  | Except.ok none =>
    match createRes with
    | Except.error _ => s
    | Except.ok s2 => s2

/-- The response body of POST /auth/token (schemas.py `Token`). -/
structure TokenOut where
  access_token : Jwt
  token_type : String
deriving DecidableEq, Repr

/-- main.py `login`: run the bootstrap guard, authenticate, 400 on failure,
otherwise issue a token carrying the user's id and role (role defaulted to
"student" via dict.get).  `now` is the bootstrap timestamp string, `nowTs` the
token-issue time in seconds. -/
def login (verify : String → String → Bool) (s : Store) (now : String)
    (nowTs : Nat) (username password : String) : Resp TokenOut × Store :=
  let s1 := ensure_default_admin s now
  match authenticate_user verify s1 username password with
  | none =>
    (Resp.err { status_code := 400, detail := "Incorrect credentials",
                wwwAuthenticate := none }, s1)
  | some user =>
    (Resp.ok
      { access_token :=
          create_access_token
            { sub := some user.1, role := some (user.2.role.getD "student") }
            nowTs none,
        token_type := "bearer" }, s1)

/-- main.py `login` with a fallible bootstrap: the bootstrap guard swallows
its errors, and authentication runs against whatever store is left. -/
def login_try (verify : String → String → Bool)
    (findRes : Except DbErr (Option (Nat × UserDoc)))
    (createRes : Except DbErr Store) (s : Store) (nowTs : Nat)
    (username password : String) : Resp TokenOut × Store :=
  let s1 := ensure_default_admin_try findRes createRes s
  match authenticate_user verify s1 username password with
  | none =>
    (Resp.err { status_code := 400, detail := "Incorrect credentials",
                wwwAuthenticate := none }, s1)
  | some user =>
    (Resp.ok
      { access_token :=
          create_access_token
            { sub := some user.1, role := some (user.2.role.getD "student") }
            nowTs none,
        token_type := "bearer" }, s1)

/-- The `login` body with the bootstrap guard removed: what §4.4 calls
"login proceeds to attempt authentication anyway". -/
def login_no_bootstrap (verify : String → String → Bool) (s : Store)
    (nowTs : Nat) (username password : String) : Resp TokenOut × Store :=
  match authenticate_user verify s username password with
  | none =>
    (Resp.err { status_code := 400, detail := "Incorrect credentials",
                wwwAuthenticate := none }, s)
  | some user =>
    (Resp.ok
      { access_token :=
          create_access_token
            { sub := some user.1, role := some (user.2.role.getD "student") }
            nowTs none,
        token_type := "bearer" }, s)

/-- main.py `admin_list_users` (GET /admin/users): behind the admin gate,
return the first 200 user documents verbatim (response_model is List[dict]:
the documents are serialized as-is, every stored field included). -/
def admin_list_users (token : Jwt) (s : Store) (now : Nat) :
    Resp (List (String × UserDoc)) :=
  match get_current_admin token s now with
  | Resp.ok _ => Resp.ok (get_documents s 200)
  | Resp.err e => Resp.err e
  | Resp.uncaught m => Resp.uncaught m

/-- Number of records with role "admin" in the store. -/
def countAdmins (s : Store) : Nat :=
  (s.users.filter (fun p => p.2.role = some "admin")).length

/-- Number of records with the given email in the store. -/
def countEmail (s : Store) (email : String) : Nat :=
  (s.users.filter (fun p => p.2.email = email)).length

/-- N sequential calls of `ensure_default_admin`, the k-th at timestamp
`nows k`. -/
def iterEnsureAdmin (nows : Nat → String) : Nat → Store → Store
  | 0, s => s
  | n + 1, s => iterEnsureAdmin nows n (ensure_default_admin s (nows n))

/-!  Theorems settling the claims. -/

/-- Claim C5: a token issued at t0 for a subject and role validates one second
later to exactly that subject and role, the TTL is 24 hours, and validation at
t0 + TTL + 1s fails with a JWTError (expiry enforced). -/
theorem token_roundtrip_and_expiry (id role : String) (t0 : Nat) :
    jwt_decode (create_access_token { sub := some id, role := some role } t0 none)
        SECRET_KEY (t0 + 1)
      = JwtResult.ok { sub := some id, role := some role,
                       exp := t0 + ACCESS_TOKEN_EXPIRE_MINUTES * 60 } ∧
    ACCESS_TOKEN_EXPIRE_MINUTES * 60 = 24 * 60 * 60 ∧
    jwt_decode (create_access_token { sub := some id, role := some role } t0 none)
        SECRET_KEY (t0 + ACCESS_TOKEN_EXPIRE_MINUTES * 60 + 1)
      = JwtResult.error := by
  refine ⟨?_, by decide, ?_⟩ <;>
    simp [jwt_decode, create_access_token, ACCESS_TOKEN_EXPIRE_MINUTES, Option.getD]

/-- Claim C1 (refuted by the code, counterexample evaluation): GET /admin/users
returns the raw user documents, so the hashed_password field of every stored
record is serialized into the response; here a store holding one admin record
with hash "$2b$12$h" produces a response listing that hash. -/
theorem admin_users_leak_password_hash :
    admin_list_users
        { payload := { sub := some "0", role := some "admin", exp := 1000 },
          key := SECRET_KEY }
        { users := [(0, { email := "antonio.admin@demo.local",
                          full_name := "AntonioAdmin",
                          hashed_password := some "$2b$12$h",
                          role := some "admin", is_active := some true,
                          created_at := none, updated_at := none })],
          nextId := 1 } 1
      = Resp.ok [("0", { email := "antonio.admin@demo.local",
                         full_name := "AntonioAdmin",
                         hashed_password := some "$2b$12$h",
                         role := some "admin", is_active := some true,
                         created_at := none, updated_at := none })] ∧
    ([("0", { email := "antonio.admin@demo.local",
              full_name := "AntonioAdmin",
              hashed_password := some "$2b$12$h",
              role := some "admin", is_active := some true,
              created_at := none, updated_at := none })]
        : List (String × UserDoc)).any (fun d => d.2.hashed_password ≠ none)
      = true := by
  exact ⟨by decide, by decide⟩

/-- Claim C4 (refuted by the code, counterexample evaluation): a token that is
validly signed with the process secret, unexpired, and carries the subject
claim "x" makes get_current_user raise bson.errors.InvalidId outside the
try/except (the ObjectId conversion), an exception that escapes the handler
uncaught (HTTP 500) instead of the claimed 401. -/
theorem current_user_uncaught_invalid_id :
    get_current_user
        { payload := { sub := some "x", role := none, exp := 1000 },
          key := SECRET_KEY }
        { users := [], nextId := 0 } 0
      = Resp.uncaught "bson.errors.InvalidId" ∧
    ∀ e : HTTPError,
      (Resp.uncaught "bson.errors.InvalidId" : Resp (String × UserDoc))
        ≠ Resp.err e := by
  exact ⟨by decide, fun e h => by cases h⟩

/-- Claim C7: every store failure during bootstrap — an error from the
existence check or from the admin creation (uniqueness violation included) —
is swallowed: ensure_default_admin returns normally with the store unchanged,
and login proceeds to attempt authentication exactly as it would with the
bootstrap step removed. -/
theorem bootstrap_swallows_store_errors (verify : String → String → Bool)
    (e : DbErr) (createRes : Except DbErr Store) (s : Store) (nowTs : Nat)
    (username password : String) :
    ensure_default_admin_try (Except.error e) createRes s = s ∧
    ensure_default_admin_try (Except.ok none) (Except.error e) s = s ∧
    login_try verify (Except.error e) createRes s nowTs username password
      = login_no_bootstrap verify s nowTs username password ∧
    login_try verify (Except.ok none) (Except.error e) s nowTs username password
      = login_no_bootstrap verify s nowTs username password :=
  ⟨rfl, rfl, rfl, rfl⟩

/-- Claim C9: a record whose is_active field is false still authenticates
successfully with the right password: authenticate_user performs no check on
is_active. -/
theorem inactive_user_still_authenticates (verify : String → String → Bool)
    (s : Store) (i : Nat) (u : UserDoc) (identifier password : String)
    (hfind : get_user_by_identifier s identifier = some (i, u))
    (_hinactive : u.is_active = some false)
    (hpw : verify password (u.hashed_password.getD "") = true) :
    authenticate_user verify s identifier password = some (objIdStr i, u) := by
  unfold authenticate_user
  rw [hfind]
  simp [hpw]

/-- Witness for C9 at a concrete store: the single user is inactive and the
password matches, and authentication returns the record. -/
theorem inactive_user_still_authenticates_witness :
    authenticate_user (fun p h => h = get_password_hash p)
        { users := [(0, { email := "i@x", full_name := "I",
                          hashed_password := some (get_password_hash "pw"),
                          role := some "student", is_active := some false,
                          created_at := none, updated_at := none })],
          nextId := 1 } "i@x" "pw"
      = some ("0", { email := "i@x", full_name := "I",
                     hashed_password := some (get_password_hash "pw"),
                     role := some "student", is_active := some false,
                     created_at := none, updated_at := none }) :=
  inactive_user_still_authenticates (fun p h => h = get_password_hash p) _ 0 _
    "i@x" "pw" (by decide) (by decide) (by decide)

/-- Claim C3: authenticate_user returns none uniformly in all three failure
cases — no record matches the identifier, the password fails verification
against the stored hash, or the record has no password hash set (the code then
verifies against the empty string, and the hasher contract of §4.1 makes
verification of a malformed stored hash return false rather than raise).  The
return type Option also records that no error is raised to the caller: the
three cases are indistinguishable. -/
theorem authenticate_returns_none_uniformly (verify : String → String → Bool)
    (s : Store) (identifier password : String)
    (hEmptyHash : ∀ p, verify p "" = false) :
    (get_user_by_identifier s identifier = none →
      authenticate_user verify s identifier password = none) ∧
    (∀ i u, get_user_by_identifier s identifier = some (i, u) →
      verify password (u.hashed_password.getD "") = false →
      authenticate_user verify s identifier password = none) ∧
    (∀ i u, get_user_by_identifier s identifier = some (i, u) →
      u.hashed_password = none →
      authenticate_user verify s identifier password = none) := by
  refine ⟨?_, ?_, ?_⟩
  · intro h
    unfold authenticate_user
    rw [h]
  · intro i u h hv
    unfold authenticate_user
    rw [h]
    simp [hv]
  · intro i u h hnone
    unfold authenticate_user
    rw [h]
    simp [hnone, hEmptyHash]

/-- Witness for C3 at a concrete store: the single record has no password hash
set, and authentication returns none. -/
theorem authenticate_returns_none_uniformly_witness :
    authenticate_user (fun _ h => h ≠ "")
        { users := [(0, { email := "nohash@x", full_name := "N",
                          hashed_password := none, role := some "student",
                          is_active := some true,
                          created_at := none, updated_at := none })],
          nextId := 1 } "nohash@x" "pw"
      = none := by
  have h := authenticate_returns_none_uniformly (fun _ h => h ≠ "")
    { users := [(0, { email := "nohash@x", full_name := "N",
                      hashed_password := none, role := some "student",
                      is_active := some true,
                      created_at := none, updated_at := none })],
      nextId := 1 } "nohash@x" "pw" (fun _ => rfl)
  exact h.2.2 0
    { email := "nohash@x", full_name := "N",
      hashed_password := none, role := some "student",
      is_active := some true, created_at := none, updated_at := none }
    (by decide) (by decide)

/-- Claim C8: a registration whose email is already stored fails with the 400
"Email already registered" Conflict, the store is returned unchanged, and the
store keeps exactly one record for that email. -/
theorem register_duplicate_email_conflict (s : Store) (now : String)
    (user_in : UserCreateIn)
    (hdup : countEmail s user_in.email = 1) :
    register s now user_in
      = (Resp.err { status_code := 400, detail := "Email already registered",
                    wwwAuthenticate := none }, s) ∧
    countEmail (register s now user_in).2 user_in.email = 1 := by
  have hne : s.users.filter (fun p => p.2.email = user_in.email) ≠ [] := by
    intro hnil
    rw [countEmail, hnil] at hdup
    simp at hdup
  obtain ⟨x, hx⟩ := List.exists_mem_of_ne_nil _ hne
  have hmem := List.mem_filter.mp hx
  have hsome : (s.users.find? (fun p => p.2.email = user_in.email)).isSome :=
    List.find?_isSome.mpr ⟨x, hmem.1, hmem.2⟩
  obtain ⟨y, hy⟩ := Option.isSome_iff_exists.mp hsome
  have hreg : register s now user_in
      = (Resp.err { status_code := 400, detail := "Email already registered",
                    wwwAuthenticate := none }, s) := by
    unfold register
    rw [hy]
  exact ⟨hreg, by rw [hreg]; exact hdup⟩

/-- Witness for C8 at a concrete store: one record with the email is stored,
re-registration fails with 400 and the count stays one. -/
theorem register_duplicate_email_conflict_witness :
    register
        { users := [(0, { email := "u@x", full_name := "U",
                          hashed_password := some (get_password_hash "pw"),
                          role := some "student", is_active := some true,
                          created_at := some "t0", updated_at := some "t0" })],
          nextId := 1 } "t1"
        { email := "u@x", full_name := "U2", password := "pw2",
          role := some "student" }
      = (Resp.err { status_code := 400, detail := "Email already registered",
                    wwwAuthenticate := none },
         { users := [(0, { email := "u@x", full_name := "U",
                           hashed_password := some (get_password_hash "pw"),
                           role := some "student", is_active := some true,
                           created_at := some "t0", updated_at := some "t0" })],
           nextId := 1 }) :=
  (register_duplicate_email_conflict _ "t1"
    { email := "u@x", full_name := "U2", password := "pw2",
      role := some "student" } (by decide)).1

/-- If the store has no admin record, `ensure_default_admin` creates the
default admin and the store then has exactly one admin record. -/
theorem ensure_default_admin_creates (s : Store) (now : String)
    (h0 : countAdmins s = 0) :
    countAdmins (ensure_default_admin s now) = 1 := by
  have hall : ∀ p ∈ s.users, ¬ ((fun p : Nat × UserDoc => p.2.role = some "admin") p : Bool) := by
    intro p hp hcontra
    have : p ∈ s.users.filter (fun p => p.2.role = some "admin") :=
      List.mem_filter.mpr ⟨hp, hcontra⟩
    rw [countAdmins, List.length_eq_zero] at h0
    rw [h0] at this
    cases this
  have hnone : s.users.find? (fun p => p.2.role = some "admin") = none :=
    List.find?_eq_none.mpr hall
  unfold ensure_default_admin
  rw [hnone]
  unfold countAdmins create_document
  simp only [List.filter_append]
  have h0' : s.users.filter (fun p => p.2.role = some "admin") = [] := by
    rw [countAdmins, List.length_eq_zero] at h0
    exact h0
  rw [h0']
  simp [defaultAdminDoc]

/-- If the store already has an admin record, `ensure_default_admin` is a
no-op: the store is returned unchanged and nothing is created. -/
theorem ensure_default_admin_noop (s : Store) (now : String)
    (h1 : 0 < countAdmins s) :
    ensure_default_admin s now = s := by
  rw [countAdmins, List.length_pos] at h1
  obtain ⟨x, hx⟩ := List.exists_mem_of_ne_nil _ h1
  have hmem := List.mem_filter.mp hx
  have hsome : (s.users.find? (fun p => p.2.role = some "admin")).isSome :=
    List.find?_isSome.mpr ⟨x, hmem.1, hmem.2⟩
  obtain ⟨y, hy⟩ := Option.isSome_iff_exists.mp hsome
  unfold ensure_default_admin
  rw [hy]

/-- Iterating `ensure_default_admin` over a store that already has an admin
record changes nothing. -/
theorem iterEnsureAdmin_noop (nows : Nat → String) (n : Nat) (s : Store)
    (h1 : 0 < countAdmins s) :
    iterEnsureAdmin nows n s = s := by
  induction n with
  | zero => rfl
  | succ n ih =>
    simp only [iterEnsureAdmin]
    rw [ensure_default_admin_noop s (nows n) h1]
    exact ih

/-- Claim C6: starting from a store with zero admin records, any number
N >= 1 of sequential ensure_default_admin calls leaves exactly one admin
record, and a call on a store that already has an admin record is a no-op
returning the store unchanged. -/
theorem bootstrap_exactly_one_admin (s : Store) (nows : Nat → String)
    (N : Nat) (hN : 1 ≤ N) (h0 : countAdmins s = 0) :
    countAdmins (iterEnsureAdmin nows N s) = 1 ∧
    ∀ (s2 : Store) (now : String), 0 < countAdmins s2 →
      ensure_default_admin s2 now = s2 := by
  refine ⟨?_, fun s2 now h => ensure_default_admin_noop s2 now h⟩
  cases N with
  | zero => omega
  | succ n =>
    simp only [iterEnsureAdmin]
    have h1 : countAdmins (ensure_default_admin s (nows n)) = 1 :=
      ensure_default_admin_creates s (nows n) h0
    rw [iterEnsureAdmin_noop nows n _ (by omega)]
    exact h1

/-- Witness for C6: three bootstrap calls on an empty store leave exactly one
admin record. -/
theorem bootstrap_exactly_one_admin_witness :
    countAdmins (iterEnsureAdmin (fun _ => "t0") 3 { users := [], nextId := 0 })
      = 1 :=
  (bootstrap_exactly_one_admin { users := [], nextId := 0 } (fun _ => "t0") 3
    (by decide) (by decide)).1

/-- Claim C2: an unauthenticated registration that supplies role "admin" (in
a store with that email free) succeeds, stores the caller-supplied role
verbatim in the created record, and that record passes the admin gate: a
token for the new id resolves through get_current_admin with no 403.  The
hypotheses say the email is unused, stored ids are below the fresh-id
counter, and the fresh id string parses back (as every ObjectId string does).
The general pyOrStr conjuncts record the defaulting behaviour: any nonempty
supplied role is stored verbatim, an absent role falls back to "student". -/
theorem register_admin_role_passes_gate (s : Store) (now : String)
    (email full_name password : String)
    (hfree : s.users.find? (fun p => p.2.email = email) = none)
    (hfresh : ∀ p ∈ s.users, p.1 ≠ s.nextId)
    (hparse : parseObjectId (objIdStr s.nextId) = some s.nextId) :
    (register s now
        { email := email, full_name := full_name, password := password,
          role := some "admin" }).1
      = Resp.ok { id := objIdStr s.nextId, email := email,
                  full_name := full_name, role := "admin",
                  is_active := true } ∧
    (register s now
        { email := email, full_name := full_name, password := password,
          role := some "admin" }).2.users
      = s.users ++
        [(s.nextId,
          { email := email, full_name := full_name,
            hashed_password := some (get_password_hash password),
            role := some "admin", is_active := some true,
            created_at := some now, updated_at := some now })] ∧
    (∀ r : String, r ≠ "" → pyOrStr (some r) "student" = r) ∧
    pyOrStr none "student" = "student" ∧
    (∀ tnow : Nat,
      get_current_admin
          (create_access_token
            { sub := some (objIdStr s.nextId), role := some "admin" } tnow none)
          (register s now
            { email := email, full_name := full_name, password := password,
              role := some "admin" }).2 (tnow + 1)
        = Resp.ok (objIdStr s.nextId,
            { email := email, full_name := full_name,
              hashed_password := some (get_password_hash password),
              role := some "admin", is_active := some true,
              created_at := some now, updated_at := some now })) := by
  have hreg : register s now
      { email := email, full_name := full_name, password := password,
        role := some "admin" }
      = (Resp.ok { id := objIdStr s.nextId, email := email,
                   full_name := full_name, role := "admin",
                   is_active := true },
         { users := s.users ++
             [(s.nextId,
               { email := email, full_name := full_name,
                 hashed_password := some (get_password_hash password),
                 role := some "admin", is_active := some true,
                 created_at := some now, updated_at := some now })],
           nextId := s.nextId + 1 }) := by
    unfold register
    rw [hfree]
    simp [create_document, pyOrStr]
  refine ⟨by rw [hreg], by rw [hreg], ?_, rfl, ?_⟩
  · intro r hr
    simp [pyOrStr, hr]
  · intro tnow
    rw [hreg]
    have hfnone : s.users.find? (fun p : Nat × UserDoc => p.1 = s.nextId) = none :=
      List.find?_eq_none.mpr (fun p hp => by simp [hfresh p hp])
    unfold get_current_admin get_current_user jwt_decode create_access_token
    simp [hparse, List.find?_append, hfnone, ACCESS_TOKEN_EXPIRE_MINUTES]

/-- Witness for C2: registering with role "admin" into the empty store gives
a created record with role "admin". -/
theorem register_admin_role_passes_gate_witness :
    (register { users := [], nextId := 0 } "t0"
        { email := "a@x", full_name := "A", password := "pw",
          role := some "admin" }).1
      = Resp.ok { id := "0", email := "a@x", full_name := "A",
                  role := "admin", is_active := true } :=
  (register_admin_role_passes_gate { users := [], nextId := 0 } "t0"
    "a@x" "A" "pw" rfl (by simp) (by decide)).1

/-- The record get_current_user produces is independent of the role claim
carried in the token payload: only the key, expiry and sub claim are
consulted, and the returned record comes from the store. -/
theorem get_current_user_role_irrelevant (s : Store) (now : Nat)
    (sub : Option String) (e : Nat) (k : String) (r1 r2 : Option String) :
    get_current_user { payload := { sub := sub, role := r1, exp := e }, key := k } s now
      = get_current_user { payload := { sub := sub, role := r2, exp := e }, key := k } s now := by
  unfold get_current_user jwt_decode
  by_cases hk : k = SECRET_KEY
  · by_cases he : e < now
    · simp [hk, he]
    · simp [hk, he]
  · simp [hk]

/-- Claim C10: get_current_admin decides 403 from the role field of the
record freshly loaded from the store.  The token's role claim is never
consulted (first conjunct: the outcome is invariant under changing it, for
every token), and for a token that resolves to a stored record the gate
passes exactly when that record's stored role is "admin" and yields the 403
otherwise — so a role change in the store takes effect on the next request,
before the token expires. -/
theorem admin_gate_reads_role_from_store (s : Store) (now : Nat)
    (sid : String) (oid : Nat) (rec : Nat × UserDoc) (e : Nat)
    (hparse : parseObjectId sid = some oid)
    (hfind : s.users.find? (fun p => p.1 = oid) = some rec)
    (hexp : ¬ e < now) :
    (∀ (sub : Option String) (e2 : Nat) (k : String) (r1 r2 : Option String),
      get_current_admin { payload := { sub := sub, role := r1, exp := e2 }, key := k } s now
        = get_current_admin { payload := { sub := sub, role := r2, exp := e2 }, key := k } s now) ∧
    (∀ r1 : Option String,
      get_current_admin { payload := { sub := some sid, role := r1, exp := e }, key := SECRET_KEY } s now
          = Resp.ok (objIdStr rec.1, rec.2)
        ↔ rec.2.role = some "admin") ∧
    (∀ r1 : Option String, rec.2.role ≠ some "admin" →
      get_current_admin { payload := { sub := some sid, role := r1, exp := e }, key := SECRET_KEY } s now
        = Resp.err { status_code := 403, detail := "Admin privileges required",
                     wwwAuthenticate := none }) := by
  have hcu : ∀ r1 : Option String,
      get_current_user { payload := { sub := some sid, role := r1, exp := e }, key := SECRET_KEY } s now
        = Resp.ok (objIdStr rec.1, rec.2) := by
    intro r1
    unfold get_current_user jwt_decode
    simp [hexp, hparse, hfind]
  refine ⟨?_, ?_, ?_⟩
  · intro sub e2 k r1 r2
    unfold get_current_admin
    rw [get_current_user_role_irrelevant s now sub e2 k r1 r2]
  · intro r1
    unfold get_current_admin
    rw [hcu r1]
    by_cases hrole : rec.2.role = some "admin"
    · simp [hrole]
    · simp [hrole]
  · intro r1 hrole
    unfold get_current_admin
    rw [hcu r1]
    simp [hrole]

/-- Witness for C10: the store holds a student record; a token whose role
claim says "admin" still gets 403 from the admin gate, because the stored
role is consulted, not the token's. -/
theorem admin_gate_reads_role_from_store_witness :
    get_current_admin
        { payload := { sub := some "0", role := some "admin", exp := 1000 },
          key := SECRET_KEY }
        { users := [(0, { email := "s@x", full_name := "S",
                          hashed_password := some (get_password_hash "pw"),
                          role := some "student", is_active := some true,
                          created_at := none, updated_at := none })],
          nextId := 1 } 0
      = Resp.err { status_code := 403, detail := "Admin privileges required",
                   wwwAuthenticate := none } :=
  (admin_gate_reads_role_from_store
    { users := [(0, { email := "s@x", full_name := "S",
                      hashed_password := some (get_password_hash "pw"),
                      role := some "student", is_active := some true,
                      created_at := none, updated_at := none })],
      nextId := 1 } 0 "0" 0
    (0, { email := "s@x", full_name := "S",
          hashed_password := some (get_password_hash "pw"),
          role := some "student", is_active := some true,
          created_at := none, updated_at := none }) 1000
    (by decide) (by decide) (by decide)).2.2 (some "admin") (by decide)
